import Mathlib

/-!
Verification of the view-embedding and GPU-surface excerpt of the engine.

The layer arithmetic (flutter layer index, depth, opacity, hit-testability)
is embedded from the expectation helpers of
src/shell/platform/fuchsia/flutter/tests/gfx_external_view_embedder_unittests.cc
(ExpectImageCompositorLayer, ExpectViewCompositorLayer,
ExtractLayersFromSceneGraph).  The GPU surface functions are embedded from
src/shell/gpu/gpu_surface_gl.cc.  Floating point depth and opacity values are
modelled over the rationals; the formulas involved use only addition,
multiplication and division by 255, so no rounding behaviour is lost.
-/

namespace Engine

/-- The visual tuning constants of the embedder
(GfxExternalViewEmbedder::kScenicZElevationBetweenLayers,
kScenicZElevationForPlatformView, kBackgroundLayerOpacity,
kOverlayLayerOpacity).  Their defining header is not part of this excerpt and
the spec treats their magnitudes as non-load-bearing, so every statement is
quantified over their values. -/
structure EmbedderConstants where
  kScenicZElevationBetweenLayers : ℚ
  kScenicZElevationForPlatformView : ℚ
  kBackgroundLayerOpacity : ℚ
  kOverlayLayerOpacity : ℚ
deriving DecidableEq

/-- From ExpectImageCompositorLayer and ExpectViewCompositorLayer:
flutter_layer_index = (layer_index + 1) / 2, integer (Nat) division. -/
def flutter_layer_index (layer_index : ℕ) : ℕ :=
  (layer_index + 1) / 2

/-- From ExpectImageCompositorLayer: views_under_layer_depth for an image
layer is flutter_layer_index * kScenicZElevationForPlatformView. -/
def image_views_under_layer_depth (c : EmbedderConstants) (layer_index : ℕ) : ℚ :=
  (flutter_layer_index layer_index : ℚ) * c.kScenicZElevationForPlatformView

/-- From ExpectImageCompositorLayer: layer_depth for an image layer. -/
def image_layer_depth (c : EmbedderConstants) (layer_index : ℕ) : ℚ :=
  (flutter_layer_index layer_index : ℚ) * c.kScenicZElevationBetweenLayers +
    image_views_under_layer_depth c layer_index

/-- From ExpectViewCompositorLayer: views_under_layer_depth for a view layer
is (flutter_layer_index - 1) * kScenicZElevationForPlatformView when
flutter_layer_index > 0, else 0.  The subtraction is the C++ size_t
subtraction, guarded so it cannot wrap. -/
def view_views_under_layer_depth (c : EmbedderConstants) (layer_index : ℕ) : ℚ :=
  if 0 < flutter_layer_index layer_index then
    ((flutter_layer_index layer_index - 1 : ℕ) : ℚ) *
      c.kScenicZElevationForPlatformView
  else 0

/-- From ExpectViewCompositorLayer: layer_depth for a view layer. -/
def view_layer_depth (c : EmbedderConstants) (layer_index : ℕ) : ℚ :=
  (flutter_layer_index layer_index : ℚ) * c.kScenicZElevationBetweenLayers +
    view_views_under_layer_depth c layer_index

/-- From ExpectImageCompositorLayer: layer_hit_testable is kIsHitTestable
exactly when flutter_layer_index == 0. -/
def image_layer_hit_testable (layer_index : ℕ) : Bool :=
  flutter_layer_index layer_index == 0

/-- From ExpectImageCompositorLayer: layer_opacity is
kBackgroundLayerOpacity / 255 for flutter_layer_index == 0 and
kOverlayLayerOpacity / 255 otherwise. -/
def image_layer_opacity (c : EmbedderConstants) (layer_index : ℕ) : ℚ :=
  if flutter_layer_index layer_index = 0 then c.kBackgroundLayerOpacity / 255
  else c.kOverlayLayerOpacity / 255

/-- The two kinds of compositor layer (FakeCompositorLayer::LayerType). -/
inductive LayerType where
  | Image : LayerType
  | View : LayerType
deriving DecidableEq, Repr

/-- From ExtractLayersFromSceneGraph: the layer type assigned to a child of
the layer tree is determined by the parity of its index. -/
def extracted_layer_type (layer_index : ℕ) : LayerType :=
  if layer_index % 2 = 0 then LayerType.Image else LayerType.View

/-- One compositor-visible layer of a submitted frame, with the attributes
the unit tests observe on it: its type, its ordinal in the layer tree, the
depth of its root node translation, the hit-testability of its root node,
the opacity it carries (material alpha for image layers, opacity-node value
for view layers), and whether it is wrapped in an opacity node. -/
structure CompositorLayer where
  layer_type : LayerType
  layer_index : ℕ
  depth : ℚ
  hit_testable : Bool
  opacity : ℚ
  wrapped_in_opacity_node : Bool
deriving DecidableEq, Repr

/-- The image layer produced at a given ordinal, with the attributes
asserted by ExpectImageCompositorLayer: depth by the image depth formula,
hit-testable exactly at flutter_layer_index 0, material alpha from the
background or overlay constant, not wrapped in an opacity node. -/
def mkImageLayer (c : EmbedderConstants) (layer_index : ℕ) : CompositorLayer :=
  { layer_type := LayerType.Image
    layer_index := layer_index
    depth := image_layer_depth c layer_index
    hit_testable := image_layer_hit_testable layer_index
    opacity := image_layer_opacity c layer_index
    wrapped_in_opacity_node := false }

/-- The view layer produced at a given ordinal, with the attributes asserted
by ExpectViewCompositorLayer: depth by the view depth formula, root opacity
node hit-testable (FakeNode::kIsHitTestable on the opacity, transform and
view-holder nodes), opacity-node value FakeOpacityNode::kDefaultOneOpacity,
wrapped in an opacity node. -/
def mkViewLayer (c : EmbedderConstants) (layer_index : ℕ) : CompositorLayer :=
  { layer_type := LayerType.View
    layer_index := layer_index
    depth := view_layer_depth c layer_index
    hit_testable := true
    opacity := 1
    wrapped_in_opacity_node := true }

/-- Modelled from the spec: the GfxExternalViewEmbedder implementation is
absent from this excerpt (only its unit tests are present).  Per the spec,
application content is always split around each embedded view, so a frame
composited with n embedded views finalizes the alternating layer list
image(0), view(1), image(2), ..., image(2n); each layer carries the
attributes the unit tests assert for its ordinal. -/
def frameLayers (c : EmbedderConstants) (numViews : ℕ) : List CompositorLayer :=
  (List.range (2 * numViews + 1)).map fun i =>
    if i % 2 = 0 then mkImageLayer c i else mkViewLayer c i

/-- Sample values for the tuning constants, used to instantiate witnesses and
counterexamples on concrete inputs. -/
def sampleConstants : EmbedderConstants :=
  { kScenicZElevationBetweenLayers := 10
    kScenicZElevationForPlatformView := 100
    kBackgroundLayerOpacity := 255
    kOverlayLayerOpacity := 204 }

/-- Any member of a frame layer list is the image or view layer of its
ordinal, according to parity. -/
theorem mem_frameLayers {c : EmbedderConstants} {n : ℕ} {L : CompositorLayer}
    (h : L ∈ frameLayers c n) :
    ∃ i, i < 2 * n + 1 ∧
      L = (if i % 2 = 0 then mkImageLayer c i else mkViewLayer c i) := by
  simp only [frameLayers, List.mem_map, List.mem_range] at h
  obtain ⟨i, hi, hL⟩ := h
  exact ⟨i, hi, hL.symm⟩

/-- A one-view frame finalizes exactly the three layers image(0), view(1),
image(2). -/
theorem frameLayers_one_eq (c : EmbedderConstants) :
    frameLayers c 1 = [mkImageLayer c 0, mkViewLayer c 1, mkImageLayer c 2] :=
  rfl

/-- C1: every layer of a finalized frame has depth
flutter_layer_index * kScenicZElevationBetweenLayers + views_under_layer_depth,
where views_under_layer_depth is flutter_layer_index *
kScenicZElevationForPlatformView for image layers, and
(flutter_layer_index - 1) * kScenicZElevationForPlatformView when
flutter_layer_index > 0 else 0 for view layers, with
flutter_layer_index = (ordinal + 1) / 2 in integer division. -/
theorem c1_layer_depth_formula (c : EmbedderConstants) (n : ℕ)
    (L : CompositorLayer) (hL : L ∈ frameLayers c n) :
    L.depth =
      (flutter_layer_index L.layer_index : ℚ) * c.kScenicZElevationBetweenLayers +
        (if L.layer_type = LayerType.Image then
          (flutter_layer_index L.layer_index : ℚ) *
            c.kScenicZElevationForPlatformView
        else if 0 < flutter_layer_index L.layer_index then
          ((flutter_layer_index L.layer_index - 1 : ℕ) : ℚ) *
            c.kScenicZElevationForPlatformView
        else 0) := by
  obtain ⟨i, hi, rfl⟩ := mem_frameLayers hL
  by_cases hp : i % 2 = 0
  · simp [hp, mkImageLayer, image_layer_depth, image_views_under_layer_depth]
  · simp [hp, mkViewLayer, view_layer_depth, view_views_under_layer_depth]

/-- C1 witness: the depth formula evaluated on the view layer at ordinal 1 of
a one-view frame with the sample constants. -/
theorem c1_layer_depth_formula_witness :
    mkViewLayer sampleConstants 1 ∈ frameLayers sampleConstants 1 ∧
    (mkViewLayer sampleConstants 1).depth =
      (flutter_layer_index (mkViewLayer sampleConstants 1).layer_index : ℚ) *
          sampleConstants.kScenicZElevationBetweenLayers +
        (if (mkViewLayer sampleConstants 1).layer_type = LayerType.Image then
          (flutter_layer_index (mkViewLayer sampleConstants 1).layer_index : ℚ) *
            sampleConstants.kScenicZElevationForPlatformView
        else if 0 < flutter_layer_index (mkViewLayer sampleConstants 1).layer_index then
          ((flutter_layer_index (mkViewLayer sampleConstants 1).layer_index - 1 : ℕ) : ℚ) *
            sampleConstants.kScenicZElevationForPlatformView
        else 0) :=
  ⟨by simp [frameLayers_one_eq], c1_layer_depth_formula sampleConstants 1
    (mkViewLayer sampleConstants 1) (by simp [frameLayers_one_eq])⟩

/-- C2: in a submitted frame layer list, an even ordinal carries an image
layer and an odd ordinal carries a view layer. -/
theorem c2_parity_determines_type (c : EmbedderConstants) (n : ℕ)
    (L : CompositorLayer) (hL : L ∈ frameLayers c n) :
    (L.layer_index % 2 = 0 → L.layer_type = LayerType.Image) ∧
    (L.layer_index % 2 = 1 → L.layer_type = LayerType.View) := by
  obtain ⟨i, hi, rfl⟩ := mem_frameLayers hL
  by_cases hp : i % 2 = 0
  · simp [hp, mkImageLayer]
  · have h1 : i % 2 = 1 := (Nat.mod_two_eq_zero_or_one i).resolve_left hp
    simp [hp, h1, mkViewLayer]

/-- C2 witness: parity of ordinal 1 in a one-view frame with the sample
constants. -/
theorem c2_parity_determines_type_witness :
    mkViewLayer sampleConstants 1 ∈ frameLayers sampleConstants 1 ∧
    (((mkViewLayer sampleConstants 1).layer_index % 2 = 0 →
        (mkViewLayer sampleConstants 1).layer_type = LayerType.Image) ∧
      ((mkViewLayer sampleConstants 1).layer_index % 2 = 1 →
        (mkViewLayer sampleConstants 1).layer_type = LayerType.View)) :=
  ⟨by simp [frameLayers_one_eq], c2_parity_determines_type sampleConstants 1
    (mkViewLayer sampleConstants 1) (by simp [frameLayers_one_eq])⟩

/-- C3 counterexample: the view layer at ordinal 1 of a one-view frame is not
the bottom-most image layer (its flutter_layer_index is 1, not 0), yet the
unit tests assert its nodes are hit-testable (FakeNode::kIsHitTestable on the
opacity, transform and view-holder nodes in ExpectViewCompositorLayer), so it
is not excluded from hit-testing as the claim states. -/
theorem c3_hit_testable_counterexample :
    mkViewLayer sampleConstants 1 ∈ frameLayers sampleConstants 1 ∧
    (mkViewLayer sampleConstants 1).layer_type = LayerType.View ∧
    flutter_layer_index (mkViewLayer sampleConstants 1).layer_index ≠ 0 ∧
    (mkViewLayer sampleConstants 1).hit_testable = true :=
  ⟨by simp [frameLayers_one_eq], rfl, by decide, rfl⟩

/-- C3 amended: among image layers, exactly the bottom-most one
(flutter_layer_index == 0) is hit-testable; every other image layer is
excluded from hit-testing; view layers keep hit-testable nodes. -/
theorem c3_amended_hit_testability (c : EmbedderConstants) (n : ℕ)
    (L : CompositorLayer) (hL : L ∈ frameLayers c n) :
    (L.layer_type = LayerType.Image →
      (L.hit_testable = true ↔ flutter_layer_index L.layer_index = 0)) ∧
    (L.layer_type = LayerType.View → L.hit_testable = true) := by
  obtain ⟨i, hi, rfl⟩ := mem_frameLayers hL
  by_cases hp : i % 2 = 0
  · simp [hp, mkImageLayer, image_layer_hit_testable]
  · simp [hp, mkViewLayer]

/-- C3 amended witness: the overlay image layer at ordinal 2 of a one-view
frame with the sample constants. -/
theorem c3_amended_hit_testability_witness :
    mkImageLayer sampleConstants 2 ∈ frameLayers sampleConstants 1 ∧
    (((mkImageLayer sampleConstants 2).layer_type = LayerType.Image →
        ((mkImageLayer sampleConstants 2).hit_testable = true ↔
          flutter_layer_index (mkImageLayer sampleConstants 2).layer_index = 0)) ∧
      ((mkImageLayer sampleConstants 2).layer_type = LayerType.View →
        (mkImageLayer sampleConstants 2).hit_testable = true)) :=
  ⟨by simp [frameLayers_one_eq], c3_amended_hit_testability sampleConstants 1
    (mkImageLayer sampleConstants 2) (by simp [frameLayers_one_eq])⟩

/-- C4: a frame composited with exactly one embedded view finalizes the layer
list image(0), view(1), image(2), and the flutter_layer_index values of
ordinals 0, 1, 2 are 0, 1, 1. -/
theorem c4_one_view_layer_list (c : EmbedderConstants) :
    (frameLayers c 1).map (fun L => (L.layer_type, L.layer_index)) =
      [(LayerType.Image, 0), (LayerType.View, 1), (LayerType.Image, 2)] ∧
    flutter_layer_index 0 = 0 ∧ flutter_layer_index 1 = 1 ∧
    flutter_layer_index 2 = 1 :=
  ⟨rfl, rfl, rfl, rfl⟩

/-- C5: the bottom-most image layer carries the background opacity constant
(scaled from the 0..255 range by division by 255), every other image layer
carries the overlay opacity constant, and every view layer is wrapped in an
opacity node whose opacity defaults to 1. -/
theorem c5_layer_opacity (c : EmbedderConstants) (n : ℕ)
    (L : CompositorLayer) (hL : L ∈ frameLayers c n) :
    (L.layer_type = LayerType.Image →
      L.opacity = (if flutter_layer_index L.layer_index = 0 then
          c.kBackgroundLayerOpacity / 255
        else c.kOverlayLayerOpacity / 255)) ∧
    (L.layer_type = LayerType.View →
      L.wrapped_in_opacity_node = true ∧ L.opacity = 1) := by
  obtain ⟨i, hi, rfl⟩ := mem_frameLayers hL
  by_cases hp : i % 2 = 0
  · simp [hp, mkImageLayer, image_layer_opacity]
  · simp [hp, mkViewLayer]

/-- C5 witness: the background image layer at ordinal 0 of a one-view frame
with the sample constants. -/
theorem c5_layer_opacity_witness :
    mkImageLayer sampleConstants 0 ∈ frameLayers sampleConstants 1 ∧
    (((mkImageLayer sampleConstants 0).layer_type = LayerType.Image →
        (mkImageLayer sampleConstants 0).opacity =
          (if flutter_layer_index (mkImageLayer sampleConstants 0).layer_index = 0 then
            sampleConstants.kBackgroundLayerOpacity / 255
          else sampleConstants.kOverlayLayerOpacity / 255)) ∧
      ((mkImageLayer sampleConstants 0).layer_type = LayerType.View →
        (mkImageLayer sampleConstants 0).wrapped_in_opacity_node = true ∧
          (mkImageLayer sampleConstants 0).opacity = 1)) :=
  ⟨by simp [frameLayers_one_eq], c5_layer_opacity sampleConstants 1
    (mkImageLayer sampleConstants 0) (by simp [frameLayers_one_eq])⟩

/-- C6: a frame composited with zero embedded views finalizes exactly one
layer: an image layer at ordinal 0, hit-testable, at depth 0, carrying the
background opacity constant. -/
theorem c6_zero_views_layer_list (c : EmbedderConstants) :
    frameLayers c 0 = [mkImageLayer c 0] ∧
    (mkImageLayer c 0).layer_type = LayerType.Image ∧
    (mkImageLayer c 0).layer_index = 0 ∧
    (mkImageLayer c 0).hit_testable = true ∧
    (mkImageLayer c 0).depth = 0 ∧
    (mkImageLayer c 0).opacity = c.kBackgroundLayerOpacity / 255 := by
  refine ⟨rfl, rfl, rfl, rfl, ?_, ?_⟩
  · show image_layer_depth c 0 = 0
    norm_num [image_layer_depth, image_views_under_layer_depth,
      flutter_layer_index]
  · show image_layer_opacity c 0 = c.kBackgroundLayerOpacity / 255
    norm_num [image_layer_opacity, flutter_layer_index]

/-- The three resources present in the root scene graph after setup
(AssertRootSceneGraph and ExpectRootSceneGraph check exactly these three
entries of the resource map). -/
inductive ResourceKind where
  | RootView : ResourceKind
  | MetricsWatcher : ResourceKind
  | LayerTree : ResourceKind
deriving DecidableEq, Repr

/-- The client-side mirror of the remote scene graph: the top-level resource
chain (root view, metrics watcher entity node, layer tree entity node) and
the layer-tree children, one per compositor layer of the last submitted
frame. -/
structure SceneGraphModel where
  top_resources : List ResourceKind
  layer_tree_children : List CompositorLayer
deriving DecidableEq, Repr

/-- The per-frame bookkeeping of the embedder between BeginFrame and
SubmitFrame: target size, device pixel ratio, and the number of embedded
views registered during preroll. -/
structure FrameInProgress where
  frame_width : ℤ
  frame_height : ℤ
  frame_dpr : ℚ
  prerolled_views : ℕ
deriving DecidableEq, Repr

/-- Modelled from the spec: the GfxExternalViewEmbedder implementation is
absent from this excerpt (only its unit tests are present).  The embedder
state machine Idle, FrameStarted, Compositing, FrameSubmitted is carried as a
scene graph, an optional frame in progress, and the present flow-control
credit of the session connection. -/
structure EmbedderModel where
  scene : SceneGraphModel
  current_frame : Option FrameInProgress
  present_credits : ℕ
deriving DecidableEq, Repr

/-- Modelled from the spec: the state right after construction, once the
initial Present has been processed; the scene graph holds exactly the root
view, the metrics watcher, and the (empty) layer tree, and one present
credit is available. -/
def initialEmbedder : EmbedderModel :=
  { scene :=
      { top_resources :=
          [ResourceKind.RootView, ResourceKind.MetricsWatcher,
            ResourceKind.LayerTree]
        layer_tree_children := [] }
    current_frame := none
    present_credits := 1 }

/-- Modelled from the spec: BeginFrame resets the per-frame state; calling it
while a previous frame is still open logs and no-ops. -/
def beginFrame (st : EmbedderModel) (w h : ℤ) (dpr : ℚ) : EmbedderModel :=
  match st.current_frame with
  | some _ => st
  | none =>
      { st with current_frame := some ⟨w, h, dpr, 0⟩ }

/-- Modelled from the spec: PrerollCompositeEmbeddedView registers one more
embedded view for the open frame; it does not mutate the scene graph. -/
def prerollCompositeEmbeddedView (st : EmbedderModel) : EmbedderModel :=
  match st.current_frame with
  | none => st
  | some f =>
      { st with
        current_frame :=
          some ⟨f.frame_width, f.frame_height, f.frame_dpr,
            f.prerolled_views + 1⟩ }

/-- Modelled from the spec: EndFrame closes the compositing phase; the depth
values it finalizes are the ones frameLayers attaches at submission. -/
def endFrame (st : EmbedderModel) : EmbedderModel :=
  st

/-- Modelled from the spec: SubmitFrame finalizes the open frame into the
alternating layer list, installs it as the children of the layer tree, and
enqueues one present, consuming a present credit; the top-level resources
are unchanged. -/
def submitFrame (c : EmbedderConstants) (st : EmbedderModel) : EmbedderModel :=
  match st.current_frame with
  | none => st
  | some f =>
      { scene :=
          { top_resources := st.scene.top_resources
            layer_tree_children := frameLayers c f.prerolled_views }
        current_frame := none
        present_credits := st.present_credits - 1 }

/-- Modelled from the spec: the OnFramePresented acknowledgement replenishes
the present credit to the number of presents the compositor now allows and
triggers buffer recycling; it does not touch the scene graph. -/
def onFramePresented (st : EmbedderModel) (num_presents_allowed : ℕ) :
    EmbedderModel :=
  { st with present_credits := num_presents_allowed }

/-- C7: BeginFrame(512, 512, dpr 1), drawing on the root canvas, EndFrame and
SubmitFrame on an embedder with no embedded views produce a scene graph with
the three top-level resources (root view, metrics watcher, layer tree) and
exactly one child image layer, and the OnFramePresented acknowledgement
afterwards leaves the scene graph unchanged. -/
theorem c7_simple_scene_resource_tree (c : EmbedderConstants) :
    (submitFrame c (endFrame (beginFrame initialEmbedder 512 512 1))).scene.top_resources
        = [ResourceKind.RootView, ResourceKind.MetricsWatcher,
            ResourceKind.LayerTree] ∧
    (submitFrame c (endFrame (beginFrame initialEmbedder 512 512 1))).scene.top_resources.length
        = 3 ∧
    (submitFrame c (endFrame (beginFrame initialEmbedder 512 512 1))).scene.layer_tree_children
        = [mkImageLayer c 0] ∧
    (onFramePresented
        (submitFrame c (endFrame (beginFrame initialEmbedder 512 512 1))) 1).scene
      = (submitFrame c (endFrame (beginFrame initialEmbedder 512 512 1))).scene :=
  ⟨rfl, rfl, rfl, rfl⟩

/-- SkISize: an integer size.  From Skia, SkISize::isEmpty holds when either
dimension is non-positive. -/
structure SkISizeM where
  width : ℤ
  height : ℤ
deriving DecidableEq, Repr

/-- SkISize::isEmpty from Skia: width <= 0 or height <= 0. -/
def SkISizeM.isEmpty (s : SkISizeM) : Bool :=
  s.width ≤ 0 || s.height ≤ 0

/-- SurfaceFrame::FramebufferInfo, reduced to the field the code touches:
supports_readback, which default-constructs to false. -/
structure FramebufferInfoM where
  supports_readback : Bool
deriving DecidableEq, Repr

/-- The two submit callbacks GPUSurfaceGL::AcquireFrame installs: the lambda
that always returns true (render_to_surface false path), and the weak-pointer
lambda that calls PresentSurface when the surface is still alive and returns
false otherwise. -/
inductive SubmitCallbackM where
  | alwaysTrue : SubmitCallbackM
  | presentViaWeak : SubmitCallbackM
deriving DecidableEq, Repr

/-- From GPUSurfaceGL::AcquireFrame: running a submit callback, given whether
the weak pointer is still alive and what PresentSurface would return. -/
def runSubmitCallback (cb : SubmitCallbackM) (weak_alive : Bool)
    (present_result : Bool) : Bool :=
  match cb with
  | SubmitCallbackM.alwaysTrue => true
  | SubmitCallbackM.presentViaWeak =>
      if weak_alive then present_result else false

/-- The SurfaceFrame AcquireFrame builds: its render surface (identified by
its size; none models the null surface), its framebuffer info, and which
submit callback it carries. -/
structure SurfaceFrameM where
  surface : Option SkISizeM
  framebuffer_info : FramebufferInfoM
  submit_callback : SubmitCallbackM
deriving DecidableEq, Repr

/-- The mutable fields of GPUSurfaceGL that AcquireFrame reads or writes:
whether a delegate is bound, the render_to_surface flag fixed at
construction, and the cached onscreen surface (identified by its size; none
models the null surface). -/
structure GPUSurfaceGLM where
  has_delegate : Bool
  render_to_surface : Bool
  onscreen_surface : Option SkISizeM
deriving DecidableEq, Repr

/-- The behaviour of the external collaborators during one AcquireFrame
call: whether GLContextMakeCurrent succeeds, the integer size the root
surface transformation maps a requested size to (the mapRect of
GLContextSurfaceTransformation followed by SkISize::Make truncation),
whether WrapOnscreenSurface yields a non-null SkSurface, and the framebuffer
info the delegate reports. -/
structure GLEnv where
  make_current_succeeds : Bool
  transformed_size : SkISizeM → SkISizeM
  wrap_succeeds : Bool
  framebuffer_info : FramebufferInfoM

/-- From GPUSurfaceGL::CreateOrUpdateSurfaces: the unchanged-size fast path
bails out with success; otherwise the cached surface is dropped, an empty
size fails, and a successful wrap installs the new surface. -/
def createOrUpdateSurfaces (env : GLEnv) (st : GPUSurfaceGLM)
    (size : SkISizeM) : Bool × GPUSurfaceGLM :=
  if st.onscreen_surface = some size then (true, st)
  else if size.isEmpty then (false, { st with onscreen_surface := none })
  else if env.wrap_succeeds then
    (true, { st with onscreen_surface := some size })
  else (false, { st with onscreen_surface := none })

/-- From GPUSurfaceGL::AcquireRenderSurface: apply the root surface
transformation to the requested size, then create or update the onscreen
surface and return it. -/
def acquireRenderSurface (env : GLEnv) (st : GPUSurfaceGLM)
    (size : SkISizeM) : Option SkISizeM × GPUSurfaceGLM :=
  match createOrUpdateSurfaces env st (env.transformed_size size) with
  | (true, st1) => (st1.onscreen_surface, st1)
  | (false, st1) => (none, st1)

/-- From GPUSurfaceGL::AcquireFrame: null without a delegate, null when the
context cannot be made current; with render_to_surface false, a frame with a
null surface, supports_readback true and the always-true submit callback;
otherwise a frame wrapping the acquired render surface, or null when that
acquisition fails. -/
def acquireFrame (env : GLEnv) (st : GPUSurfaceGLM) (size : SkISizeM) :
    Option SurfaceFrameM × GPUSurfaceGLM :=
  if st.has_delegate = false then (none, st)
  else if env.make_current_succeeds = false then (none, st)
  else if st.render_to_surface = false then
    (some { surface := none
            framebuffer_info := { supports_readback := true }
            submit_callback := SubmitCallbackM.alwaysTrue }, st)
  else
    match acquireRenderSurface env st size with
    | (none, st1) => (none, st1)
    | (some s, st1) =>
        (some { surface := some s
                framebuffer_info := env.framebuffer_info
                submit_callback := SubmitCallbackM.presentViaWeak }, st1)

/-- The cached onscreen surface is only ever installed after the empty-size
check, so it is never empty.  Hypothesis form used below. -/
def cachedSurfaceNonEmpty (st : GPUSurfaceGLM) : Prop :=
  ∀ s, st.onscreen_surface = some s → s.isEmpty = false

/-- Under the cached-surface invariant, CreateOrUpdateSurfaces fails on an
empty size. -/
theorem createOrUpdateSurfaces_empty_false (env : GLEnv) (st : GPUSurfaceGLM)
    (size : SkISizeM) (hinv : cachedSurfaceNonEmpty st)
    (he : size.isEmpty = true) :
    (createOrUpdateSurfaces env st size).1 = false := by
  unfold createOrUpdateSurfaces
  by_cases hc : st.onscreen_surface = some size
  · exact absurd (hinv size hc) (by simp [he])
  · simp [hc, he]

/-- Under the cached-surface invariant, AcquireRenderSurface yields no
surface when the transformed size is empty. -/
theorem acquireRenderSurface_empty_none (env : GLEnv) (st : GPUSurfaceGLM)
    (size : SkISizeM) (hinv : cachedSurfaceNonEmpty st)
    (he : (env.transformed_size size).isEmpty = true) :
    (acquireRenderSurface env st size).1 = none := by
  have h :=
    createOrUpdateSurfaces_empty_false env st (env.transformed_size size)
      hinv he
  unfold acquireRenderSurface
  rcases hq : createOrUpdateSurfaces env st (env.transformed_size size) with
    ⟨ok, st1⟩
  rw [hq] at h
  simp only at h
  subst h
  rfl

/-- Sample collaborator behaviour: the context can be made current, the root
surface transformation is the identity, and surface wrapping succeeds. -/
def acquireEnvSample : GLEnv :=
  { make_current_succeeds := true
    transformed_size := fun s => s
    wrap_succeeds := true
    framebuffer_info := { supports_readback := false } }

/-- Sample collaborator behaviour in which GLContextMakeCurrent fails. -/
def failingCurrentEnv : GLEnv :=
  { make_current_succeeds := false
    transformed_size := fun s => s
    wrap_succeeds := true
    framebuffer_info := { supports_readback := false } }

/-- A GPUSurfaceGL constructed with render_to_surface false, with a bound
delegate and no cached surface. -/
def surfaceNoRender : GPUSurfaceGLM :=
  { has_delegate := true
    render_to_surface := false
    onscreen_surface := none }

/-- A GPUSurfaceGL constructed with render_to_surface true, with a bound
delegate and no cached surface. -/
def surfaceRenderOn : GPUSurfaceGLM :=
  { has_delegate := true
    render_to_surface := true
    onscreen_surface := none }

/-- The degenerate 0x0 size. -/
def degenerateSize : SkISizeM :=
  { width := 0, height := 0 }

/-- C8 counterexample: on a surface constructed with render_to_surface false,
with the context made current and the identity root transformation, the
degenerate 0x0 requested size still yields a non-null SurfaceFrame, so
AcquireFrame does not return null for every degenerate size. -/
theorem c8_degenerate_size_counterexample :
    (acquireEnvSample.transformed_size degenerateSize).isEmpty = true ∧
    surfaceNoRender.render_to_surface = false ∧
    (acquireFrame acquireEnvSample surfaceNoRender degenerateSize).1 =
      some { surface := none
             framebuffer_info := { supports_readback := true }
             submit_callback := SubmitCallbackM.alwaysTrue } :=
  ⟨rfl, rfl, rfl⟩

/-- C8 amended: AcquireFrame returns null whenever making the GL context
current fails; when the surface was constructed with render_to_surface true
it also returns null whenever the requested size is empty after the root
surface transformation; and a non-null frame requires a bound delegate, a
successful context activation and, when render_to_surface is true, a
non-empty transformed size.  With render_to_surface false a degenerate size
does not force null. -/
theorem c8_amended_acquire_frame (env : GLEnv) (st : GPUSurfaceGLM)
    (size : SkISizeM) (hinv : cachedSurfaceNonEmpty st) :
    (env.make_current_succeeds = false →
      (acquireFrame env st size).1 = none) ∧
    (st.render_to_surface = true →
      (env.transformed_size size).isEmpty = true →
      (acquireFrame env st size).1 = none) ∧
    ((acquireFrame env st size).1 ≠ none →
      st.has_delegate = true ∧ env.make_current_succeeds = true ∧
        (st.render_to_surface = true →
          (env.transformed_size size).isEmpty = false)) := by
  refine ⟨?_, ?_, ?_⟩
  · intro h
    by_cases hd : st.has_delegate = false
    · simp [acquireFrame, hd]
    · simp [acquireFrame, hd, h]
  · intro hr he
    by_cases hd : st.has_delegate = false
    · simp [acquireFrame, hd]
    · by_cases hc : env.make_current_succeeds = false
      · simp [acquireFrame, hd, hc]
      · have hn := acquireRenderSurface_empty_none env st size hinv he
        simp only [Bool.not_eq_false] at hd hc
        simp [acquireFrame, hd, hc, hr]
        rcases hq : acquireRenderSurface env st size with ⟨surf, st1⟩
        rw [hq] at hn
        simp only at hn
        subst hn
        rfl
  · intro hne
    by_cases hd : st.has_delegate = false
    · simp [acquireFrame, hd] at hne
    · by_cases hc : env.make_current_succeeds = false
      · simp [acquireFrame, hd, hc] at hne
      · simp only [Bool.not_eq_false] at hd hc
        refine ⟨hd, hc, ?_⟩
        intro hr
        by_contra hemp
        have he : (env.transformed_size size).isEmpty = true := by
          revert hemp
          cases (env.transformed_size size).isEmpty <;> simp
        have hn := acquireRenderSurface_empty_none env st size hinv he
        apply hne
        simp [acquireFrame, hd, hc, hr]
        rcases hq : acquireRenderSurface env st size with ⟨surf, st1⟩
        rw [hq] at hn
        simp only at hn
        subst hn
        rfl

/-- C8 amended witness: the amended statement evaluated on a surface with
render_to_surface true, a failing context activation, and the degenerate
size. -/
theorem c8_amended_acquire_frame_witness :
    cachedSurfaceNonEmpty surfaceRenderOn ∧
    ((failingCurrentEnv.make_current_succeeds = false →
        (acquireFrame failingCurrentEnv surfaceRenderOn degenerateSize).1
          = none) ∧
      (surfaceRenderOn.render_to_surface = true →
        (failingCurrentEnv.transformed_size degenerateSize).isEmpty = true →
        (acquireFrame failingCurrentEnv surfaceRenderOn degenerateSize).1
          = none) ∧
      ((acquireFrame failingCurrentEnv surfaceRenderOn degenerateSize).1
          ≠ none →
        surfaceRenderOn.has_delegate = true ∧
          failingCurrentEnv.make_current_succeeds = true ∧
          (surfaceRenderOn.render_to_surface = true →
            (failingCurrentEnv.transformed_size degenerateSize).isEmpty
              = false))) :=
  ⟨fun _s h => Option.noConfusion h,
    c8_amended_acquire_frame failingCurrentEnv surfaceRenderOn degenerateSize
      (fun _s h => Option.noConfusion h)⟩

/-- C10: with render_to_surface false, a bound delegate and a successful
context activation, AcquireFrame returns a non-null frame for every
requested size, carrying a null render surface, supports_readback true and
the always-true submit callback. -/
theorem c10_no_render_to_surface_frame (env : GLEnv) (st : GPUSurfaceGLM)
    (size : SkISizeM) (hd : st.has_delegate = true)
    (hr : st.render_to_surface = false)
    (hc : env.make_current_succeeds = true) :
    (acquireFrame env st size).1 =
      some { surface := none
             framebuffer_info := { supports_readback := true }
             submit_callback := SubmitCallbackM.alwaysTrue } ∧
    (∀ weak_alive present_result : Bool,
      runSubmitCallback SubmitCallbackM.alwaysTrue weak_alive present_result
        = true) := by
  constructor
  · simp [acquireFrame, hd, hr, hc]
  · intro a b
    rfl

/-- C10 witness: the non-null frame obtained at the degenerate 0x0 size on a
surface with render_to_surface false. -/
theorem c10_no_render_to_surface_frame_witness :
    surfaceNoRender.has_delegate = true ∧
    surfaceNoRender.render_to_surface = false ∧
    acquireEnvSample.make_current_succeeds = true ∧
    ((acquireFrame acquireEnvSample surfaceNoRender degenerateSize).1 =
        some { surface := none
               framebuffer_info := { supports_readback := true }
               submit_callback := SubmitCallbackM.alwaysTrue } ∧
      (∀ weak_alive present_result : Bool,
        runSubmitCallback SubmitCallbackM.alwaysTrue weak_alive
          present_result = true)) :=
  ⟨rfl, rfl, rfl,
    c10_no_render_to_surface_frame acquireEnvSample surfaceNoRender
      degenerateSize rfl rfl rfl⟩

end Engine
